import Mathlib

/-!
Shallow embedding of `ksl_notify.py` (KSL classifieds notifier).

The embedding covers the pure core the specification talks about:
* `gather_report` — the Report Builder (`ksl_notify.py`, lines 81–96);
* `check_ksl` — the per-pass, per-query orchestration (lines 99–116);
* the poll loop's exception accounting in `main` (lines 183–219);
* the message construction of `send_email` (lines 15–24, 62–78) and the
  operator-alert invocation of it (lines 203–213).

Strings are Lean `String`s (lists of unicode scalar values); Python's
`encode('ascii','ignore').decode()` is modelled as dropping every character
whose code point is ≥ 128.  Python integers are modelled as `Int`.
-/

namespace KslNotify

/-- A listing record, as produced by the external `ksl` collaborator.  Only
the fields the notifier reads (`result.link`, `.title`, `.price`, `.age`,
`.city`, `.state`, `.description`) are modelled; all are formatted into a
string template, so all are taken as strings. -/
structure Listing where
  link : String
  title : String
  price : String
  age : String
  city : String
  state : String
  description : String
deriving DecidableEq, Repr

/-- `s.encode('ascii', 'ignore').decode()`: drop every character whose code
point does not fit in 7 bits. -/
def asciiFilter (s : String) : String :=
  ⟨s.data.filter (fun c => c.toNat < 128)⟩

/-- The formatted block `gather_report` appends for one new listing
(`ksl_notify.py` lines 86–91): 25 asterisks, then link, title,
price/age/location and description lines, ending in a blank line. -/
def block (r : Listing) : String :=
  String.mk (List.replicate 25 '*') ++ "\n" ++ r.link ++ "\n" ++ r.title ++
    "\n$" ++ r.price ++ " - " ++ r.age ++ " - " ++ r.city ++ ", " ++ r.state ++
    "\n*  " ++ r.description ++ "\n\n"

/-- The loop body of `gather_report`: membership is tested against the
*original* `seen` list (the Python code checks `result.link not in seen`
while appending to the copy `new_seen`), and the ASCII filter is re-applied
to the whole accumulated report after each append. -/
def gatherGo (seen : List String) : List Listing → String → List String → String × List String
  | [], report, new_seen => (report, new_seen)
  | r :: rs, report, new_seen =>
      if r.link ∈ seen then
        gatherGo seen rs report new_seen
      else
        gatherGo seen rs (asciiFilter (report ++ block r)) (new_seen ++ [r.link])

/-- `gather_report(query_result, seen)` (`ksl_notify.py` lines 81–96):
returns the report text and the updated seen list (`new_seen` starts as
`seen.copy()`). -/
def gather_report (query_result : List Listing) (seen : List String) : String × List String :=
  gatherGo seen query_result "" seen

/-- The listings of a batch whose link is not already in `seen` — the ones
`gather_report` emits a block for and records. -/
def newListings (query_result : List Listing) (seen : List String) : List Listing :=
  query_result.filter (fun r => r.link ∉ seen)

/-- Concatenation of a list of strings (in order). -/
def concatAll : List String → String
  | [] => ""
  | s :: rest => s ++ concatAll rest

/-! ### Basic lemmas about the ASCII filter and blocks -/

theorem asciiFilter_data (s : String) :
    (asciiFilter s).data = s.data.filter (fun c => c.toNat < 128) := rfl

theorem asciiFilter_append (a b : String) :
    asciiFilter (a ++ b) = asciiFilter a ++ asciiFilter b := by
  apply String.ext
  simp [asciiFilter_data, String.data_append, List.filter_append]

theorem asciiFilter_idem (s : String) :
    asciiFilter (asciiFilter s) = asciiFilter s := by
  apply String.ext
  simp [asciiFilter_data, List.filter_filter]

theorem asciiFilter_ascii (s : String) :
    ∀ c ∈ (asciiFilter s).data, c.toNat < 128 := by
  intro c hc
  rw [asciiFilter_data] at hc
  exact of_decide_eq_true (List.mem_filter.mp hc).2

theorem asciiFilter_empty : asciiFilter "" = "" := rfl

theorem empty_append (s : String) : "" ++ s = s := by
  apply String.ext
  simp [String.data_append]

/-! ### Characterization of `gather_report` -/

theorem gatherGo_spec (seen : List String) (rs : List Listing) (report : String)
    (ns : List String) (h : asciiFilter report = report) :
    gatherGo seen rs report ns =
      (report ++ concatAll ((newListings rs seen).map (fun r => asciiFilter (block r))),
       ns ++ (newListings rs seen).map Listing.link) := by
  induction rs generalizing report ns with
  | nil =>
      simp [gatherGo, newListings, concatAll]
  | cons r rs ih =>
      by_cases hr : r.link ∈ seen
      · have hfil : newListings (r :: rs) seen = newListings rs seen := by
          simp [newListings, List.filter_cons, hr]
        rw [hfil]
        simpa [gatherGo, hr] using ih report ns h
      · have hfil : newListings (r :: rs) seen = r :: newListings rs seen := by
          simp [newListings, List.filter_cons, hr]
        rw [hfil]
        have hstep : asciiFilter (report ++ block r) = report ++ asciiFilter (block r) := by
          rw [asciiFilter_append, h]
        have hasc : asciiFilter (report ++ asciiFilter (block r)) =
            report ++ asciiFilter (block r) := by
          rw [asciiFilter_append, h, asciiFilter_idem]
        have := ih (asciiFilter (report ++ block r)) (ns ++ [r.link]) (by rw [hstep]; exact hasc)
        rw [gatherGo, if_neg hr, this, hstep]
        simp [concatAll, List.append_assoc, String.append_assoc]

theorem gather_report_spec (rs : List Listing) (seen : List String) :
    gather_report rs seen =
      (concatAll ((newListings rs seen).map (fun r => asciiFilter (block r))),
       seen ++ (newListings rs seen).map Listing.link) := by
  have := gatherGo_spec seen rs "" seen asciiFilter_empty
  rw [gather_report, this, empty_append]

/-! ### The email message construction (`send_email`, lines 15–24 and 62–78) -/

/-- One attempted `send_email(email, password, smtpserver, report, query, count)`
call, keeping the three content arguments. -/
structure EmailMsg where
  query : String
  report : String
  count : Int
deriving DecidableEq, Repr

/-- `plural` in `send_email`: `"es"` when `count > 1`, else `""`. -/
def pluralSuffix (count : Int) : String :=
  if count > 1 then "es" else ""

/-- `subject.format(query=query)` — the subject line template. -/
def subjectLine (query : String) : String :=
  query ++ " search match on KSL Classifieds"

/-- `sender.format(mail=email)`. -/
def senderLine (mail : String) : String :=
  "KSL Notify <" ++ mail ++ ">"

/-- The body built by `send_email` from `message_template`.  The template is
six `\r\n`-joined rows (the `"New match…{query}"` and the following `""`
literal are adjacent string literals, hence one row). -/
def emailBody (toAddr query report : String) (count : Int) : String :=
  "Subject: " ++ subjectLine query ++ "\r\n" ++
  "To: " ++ toAddr ++ "\r\n" ++
  "From: " ++ senderLine toAddr ++ "\r\n" ++
  "\r\n" ++
  "New match" ++ pluralSuffix count ++ " found for query " ++ query ++ "\r\n" ++
  report

/-! ### `check_ksl` (lines 99–116) -/

/-- The seen store: per-query list of links.  The Python dict with the
`if query not in seen: seen[query] = []` initialization is modelled as a
total function defaulting to `[]`. -/
def applyUpdate (seen : String → List String) (q : String) (v : List String) :
    String → List String :=
  fun x => if x = q then v else seen x

/-- `check_ksl` over one pass: for each `(query, listings)` pair produced by
the search collaborator, run `gather_report` against that query's seen list,
send an email when the report is non-empty (with `count` the length
difference of the lists), and store `new_seen_list` back unconditionally.
Returns the final store and the emails sent, in order. -/
def check_ksl : List (String × List Listing) → (String → List String) →
    (String → List String) × List EmailMsg
  | [], seen => (seen, [])
  | (q, batch) :: rest, seen =>
      let pr := gather_report batch (seen q)
      let msgs : List EmailMsg :=
        if pr.1 = "" then []
        else [⟨q, pr.1, (pr.2.length : Int) - ((seen q).length : Int)⟩]
      let res := check_ksl rest (applyUpdate seen q pr.2)
      (res.1, msgs ++ res.2)

/-! ### The poll loop's exception accounting (`main`, lines 180–219) -/

/-- Outcome of one pass of the `while True` loop body:
* `ok` — `check_ksl` returned without raising;
* `softTimeout` — a `socket.timeout` was raised;
* `hardError excTxt alertFails` — some other `Exception` was raised, with
  `str(e) = excTxt`; `alertFails` records whether the best-effort alert email
  send (if attempted) itself raises. -/
inductive PassOutcome where
  | ok : PassOutcome
  | softTimeout : PassOutcome
  | hardError (excTxt : String) (alertFails : Bool) : PassOutcome
deriving DecidableEq, Repr

/-- `str(queries)` for the configured query list: Python's `repr` of a list
of strings.  Modelled for the common case of queries containing no quote or
backslash characters (each element is wrapped in single quotes). -/
def pyStrList (qs : List String) : String :=
  "[" ++ String.intercalate ", " (qs.map (fun q => "'" ++ q ++ "'")) ++ "]"

/-- The operator-alert invocation of `send_email` (lines 206–211): the
*report* argument is `str(queries)`, the *query* argument is the
exception-describing text (`"%d" % (exception_count / 10)` formats the float
quotient truncated to an integer), and the *count* argument is `0`. -/
def alertMsg (queries : List String) (excTxt : String) (newCount : Int) : EmailMsg :=
  { query := "Exception in script detected.\n" ++
      "Exception count " ++ toString (newCount / 10) ++ "\n" ++
      "The script will die after the count reaches 10\n" ++ excTxt
    report := pyStrList queries
    count := 0 }

/-- The counter update of one pass: success decrements when positive
(`if exception_count > 0: exception_count -= 1`); both error classes add 10. -/
def stepCount (c : Int) : PassOutcome → Int
  | .ok => if c > 0 then c - 1 else c
  | .softTimeout => c + 10
  | .hardError _ _ => c + 10

/-- Result of one pass of the loop body: the new counter, the operator-alert
emails attempted during the pass, and whether the pass re-raises
(terminating the loop). -/
structure LoopResult where
  count : Int
  alerts : List EmailMsg
  terminated : Bool
deriving DecidableEq, Repr

/-- One pass of the `while True` body, for the error-accounting part:
* a clean pass decrements the counter (floor at 0) and continues;
* `socket.timeout` adds 10 and continues — no alert, no termination check;
* any other exception adds 10, attempts the operator alert when the new
  counter exceeds `thresh` (the attempt's own failure is swallowed by the
  inner bare `except: pass`), and re-raises when the new counter
  exceeds 100. -/
def loopStep (queries : List String) (thresh c : Int) : PassOutcome → LoopResult
  | .ok => ⟨stepCount c .ok, [], false⟩
  | .softTimeout => ⟨stepCount c .softTimeout, [], false⟩
  | .hardError txt _alertFails =>
      ⟨c + 10,
       if c + 10 > thresh then [alertMsg queries txt (c + 10)] else [],
       decide (c + 10 > 100)⟩

/-- Run the loop over a sequence of pass outcomes, collecting each pass's
`LoopResult`; a terminating (re-raising) pass is the last one executed. -/
def loopRun (queries : List String) (thresh : Int) : Int → List PassOutcome → List LoopResult
  | _, [] => []
  | c, o :: os =>
      let r := loopStep queries thresh c o
      r :: (if r.terminated then [] else loopRun queries thresh r.count os)

/-! ### Further lemmas -/

theorem asciiFilter_concatAll (l : List String) :
    asciiFilter (concatAll l) = concatAll (l.map asciiFilter) := by
  induction l with
  | nil => simp [concatAll, asciiFilter_empty]
  | cons s rest ih => simp [concatAll, asciiFilter_append, ih]

theorem star_filter :
    (List.replicate 25 '*').filter (fun c => decide (c.toNat < 128)) =
      List.replicate 25 '*' := by decide

/-- The filtered block of a listing starts with the 25 asterisks (all ASCII,
so the filter keeps them). -/
theorem block_starts_with_stars (r : Listing) :
    List.replicate 25 '*' <+: (asciiFilter (block r)).data := by
  refine ⟨(asciiFilter ("\n" ++ r.link ++ "\n" ++ r.title ++ "\n$" ++ r.price ++ " - " ++
    r.age ++ " - " ++ r.city ++ ", " ++ r.state ++ "\n*  " ++ r.description ++ "\n\n")).data, ?_⟩
  have : (String.mk (List.replicate 25 '*')).data.filter (fun c => decide (c.toNat < 128)) =
      List.replicate 25 '*' := star_filter
  simp [block, asciiFilter_data, String.data_append, List.filter_append, this,
    List.append_assoc]

/-- The filtered link appears inside the listing's filtered block. -/
theorem link_infix_block (r : Listing) :
    (asciiFilter r.link).data <:+: (asciiFilter (block r)).data := by
  refine ⟨(asciiFilter (String.mk (List.replicate 25 '*') ++ "\n")).data,
    (asciiFilter ("\n" ++ r.title ++ "\n$" ++ r.price ++ " - " ++ r.age ++ " - " ++
      r.city ++ ", " ++ r.state ++ "\n*  " ++ r.description ++ "\n\n")).data, ?_⟩
  simp [block, asciiFilter_data, String.data_append, List.filter_append, List.append_assoc]

/-! ## Claims -/

/-- **C3.** For every input batch of listings and every seen list, the report
built by `gather_report` is the in-order concatenation of exactly one
formatted (ASCII-filtered) block per listing whose link is not already in
the seen list, and each such block contains that listing's (filtered) link. -/
theorem C3_report_one_block_per_new_listing (rs : List Listing) (seen : List String) :
    (gather_report rs seen).1 =
      concatAll ((newListings rs seen).map (fun r => asciiFilter (block r))) ∧
    ∀ r : Listing, (asciiFilter r.link).data <:+: (asciiFilter (block r)).data := by
  constructor
  · rw [gather_report_spec]
  · exact link_infix_block

/-- **C6.** If every listing of the batch (in particular, vacuously, when the
batch is empty) has its link already in the seen list, `gather_report`
returns the empty report and the unchanged seen list. -/
theorem C6_no_new_listings_empty_report (rs : List Listing) (seen : List String)
    (h : ∀ r ∈ rs, r.link ∈ seen) :
    gather_report rs seen = ("", seen) := by
  rw [gather_report_spec]
  have hn : newListings rs seen = [] := by
    simp only [newListings, List.filter_eq_nil_iff]
    intro r hr
    simpa using h r hr
  simp [hn, concatAll]

/-- **C6 witness**: a batch whose single listing was already seen. -/
theorem C6_witness :
    gather_report [⟨"x", "t", "1", "2d", "SLC", "UT", "d"⟩] ["x"] = ("", ["x"]) :=
  C6_no_new_listings_empty_report [⟨"x", "t", "1", "2d", "SLC", "UT", "d"⟩] ["x"] (by decide)

/-- **C8.** The report is the non-ASCII-dropping filter of the concatenated
raw blocks, and consequently every character of the report is a 7-bit
(ASCII) character. -/
theorem C8_report_is_ascii (rs : List Listing) (seen : List String) :
    (gather_report rs seen).1 = asciiFilter (concatAll ((newListings rs seen).map block)) ∧
    ∀ c ∈ (gather_report rs seen).1.data, c.toNat < 128 := by
  have h1 : (gather_report rs seen).1 =
      asciiFilter (concatAll ((newListings rs seen).map block)) := by
    rw [gather_report_spec, asciiFilter_concatAll, List.map_map]
    rfl
  refine ⟨h1, ?_⟩
  rw [h1]
  exact asciiFilter_ascii _

/-- **C9.** The report is empty exactly when `new_seen` equals the input seen
list (no new links), and every new listing's block survives the ASCII filter
with its leading 25 asterisks intact — so "empty report" and "no new links"
coincide. -/
theorem C9_empty_report_iff_no_new_links (rs : List Listing) (seen : List String) :
    ((gather_report rs seen).1 = "" ↔ (gather_report rs seen).2 = seen) ∧
    ∀ r : Listing, List.replicate 25 '*' <+: (asciiFilter (block r)).data := by
  refine ⟨?_, block_starts_with_stars⟩
  rw [gather_report_spec]
  constructor
  · intro h1
    cases hn : newListings rs seen with
    | nil => simp [hn]
    | cons r t =>
        exfalso
        rw [hn] at h1
        have hdata := congrArg String.data h1
        rw [List.map_cons, concatAll, String.data_append] at hdata
        have hnil : (asciiFilter (block r)).data = [] :=
          List.append_eq_nil.mp hdata |>.1
        obtain ⟨u, hu⟩ := block_starts_with_stars r
        rw [hnil] at hu
        exact absurd (List.append_eq_nil.mp hu).1 (by decide)
  · intro h2
    have hlen := congrArg List.length h2
    rw [List.length_append] at hlen
    have : ((newListings rs seen).map Listing.link).length = 0 := by omega
    have hmap : (newListings rs seen).map Listing.link = [] :=
      List.eq_nil_of_length_eq_zero this
    have hn : newListings rs seen = [] := List.map_eq_nil_iff.mp hmap
    simp [hn, concatAll]

/-- **C2 counterexample.** The claim "the seen sequence never contains a
duplicate link, even when the same link occurs more than once within a
single fetched batch" is false: membership is tested against the seen list
as it was at the start of the invocation, so a link occurring twice in one
batch is appended twice. -/
theorem C2_counterexample :
    (gather_report [⟨"a", "t", "1", "2d", "SLC", "UT", "d"⟩,
        ⟨"a", "t", "1", "2d", "SLC", "UT", "d"⟩] []).2 = ["a", "a"] ∧
    ¬ (["a", "a"] : List String).Nodup :=
  ⟨rfl, by decide⟩

/-- **C2 (amended).** A link already present in the seen list at the start of
the invocation is never re-appended, and when no link occurs more than once
among the batch's unseen listings, a duplicate-free seen list stays
duplicate-free. -/
theorem C2_amended_no_duplicates (rs : List Listing) (seen : List String)
    (h1 : seen.Nodup) (h2 : ((newListings rs seen).map Listing.link).Nodup) :
    (gather_report rs seen).2 = seen ++ (newListings rs seen).map Listing.link ∧
    (gather_report rs seen).2.Nodup := by
  have hspec := gather_report_spec rs seen
  refine ⟨by rw [hspec], ?_⟩
  rw [hspec]
  refine List.Nodup.append h1 h2 ?_
  intro a ha hb
  obtain ⟨r, hr, hlink⟩ := List.mem_map.mp hb
  have : r.link ∉ seen := by simpa using List.of_mem_filter hr
  exact this (hlink ▸ ha)

/-- **C2 witness**: two distinct new links over a disjoint seen list. -/
theorem C2_amended_witness :
    (gather_report [⟨"a", "t", "1", "2d", "SLC", "UT", "d"⟩,
        ⟨"b", "t", "1", "2d", "SLC", "UT", "d"⟩] ["c"]).2 =
      ["c"] ++ (newListings [⟨"a", "t", "1", "2d", "SLC", "UT", "d"⟩,
        ⟨"b", "t", "1", "2d", "SLC", "UT", "d"⟩] ["c"]).map Listing.link ∧
    (gather_report [⟨"a", "t", "1", "2d", "SLC", "UT", "d"⟩,
        ⟨"b", "t", "1", "2d", "SLC", "UT", "d"⟩] ["c"]).2.Nodup :=
  C2_amended_no_duplicates _ _ (by decide) (by decide)

/-- **C7.** Per pass and per query: the Notifier is invoked exactly once with
count equal to the number of newly appended links (which equals the length
difference `len(new_seen_list) - len(seen[query])`) when the report is
non-empty, not at all when it is empty, and in both cases `new_seen_list` is
stored back into the seen store unconditionally before the remaining queries
are processed. -/
theorem C7_notify_once_per_query_with_count (seen : String → List String) (q : String)
    (batch : List Listing) (rest : List (String × List Listing)) :
    check_ksl ((q, batch) :: rest) seen =
      ((check_ksl rest (applyUpdate seen q (gather_report batch (seen q)).2)).1,
       (if (gather_report batch (seen q)).1 = "" then []
        else [⟨q, (gather_report batch (seen q)).1,
          ((newListings batch (seen q)).length : Int)⟩]) ++
       (check_ksl rest (applyUpdate seen q (gather_report batch (seen q)).2)).2) := by
  have hcount : ((gather_report batch (seen q)).2.length : Int) -
      (((seen q).length : Nat) : Int) = ((newListings batch (seen q)).length : Int) := by
    rw [gather_report_spec]
    simp only [List.length_append, List.length_map]
    push_cast
    omega
  rw [check_ksl]
  rw [hcount]

/-! ### Counter dynamics lemmas -/

theorem stepCount_nonneg (c : Int) (o : PassOutcome) (h : 0 ≤ c) :
    0 ≤ stepCount c o := by
  cases o with
  | ok => simp only [stepCount]; split <;> omega
  | softTimeout => simp only [stepCount]; omega
  | hardError txt b => simp only [stepCount]; omega

theorem foldl_stepCount_nonneg (os : List PassOutcome) (c : Int) (h : 0 ≤ c) :
    0 ≤ List.foldl stepCount c os := by
  induction os generalizing c with
  | nil => simpa using h
  | cons o os ih => exact ih (stepCount c o) (stepCount_nonneg c o h)

theorem foldl_stepCount_ok (N : Nat) (c : Int) (h : 0 ≤ c) :
    List.foldl stepCount c (List.replicate N .ok) = max 0 (c - N) := by
  induction N generalizing c with
  | zero => simp; omega
  | succ N ih =>
      rw [List.replicate_succ, List.foldl_cons, ih (stepCount c .ok) (stepCount_nonneg c .ok h)]
      simp only [stepCount]
      split <;> push_cast <;> omega

/-- **C4.** From any nonnegative counter: `N` clean passes leave the counter
at `max(0, initial − N)`; a soft error followed by a clean pass is `+10`
then `−1`; and the counter never becomes negative under any outcome
sequence. -/
theorem C4_counter_decay (c : Int) (N : Nat) (os : List PassOutcome) (h : 0 ≤ c) :
    List.foldl stepCount c (List.replicate N .ok) = max 0 (c - N) ∧
    stepCount c .softTimeout = c + 10 ∧
    stepCount (stepCount c .softTimeout) .ok = (c + 10) - 1 ∧
    0 ≤ List.foldl stepCount c os := by
  refine ⟨foldl_stepCount_ok N c h, rfl, ?_, foldl_stepCount_nonneg os c h⟩
  simp only [stepCount]
  split <;> omega

/-- **C4 witness**: counter 5, three clean passes, then a mixed outcome
sequence staying nonnegative. -/
theorem C4_witness :
    List.foldl stepCount 5 (List.replicate 3 .ok) = max 0 (5 - (3 : Nat)) ∧
    stepCount 5 .softTimeout = 5 + 10 ∧
    stepCount (stepCount 5 .softTimeout) .ok = (5 + 10) - 1 ∧
    0 ≤ List.foldl stepCount 5 [.softTimeout, .hardError "e" false, .ok, .ok] :=
  C4_counter_decay 5 3 [.softTimeout, .hardError "e" false, .ok, .ok] (by decide)

/-- **C1 counterexample.** The claim "whenever the counter strictly exceeds
100 after any soft or hard error increment, the loop terminates" is false:
the `> 100` check sits only in the generic-`Exception` branch, so a run of
soft timeouts drives the counter to 110, 120, … without ever terminating —
all twelve passes execute and none re-raises. -/
theorem C1_counterexample :
    (loopRun [] 50 0 (List.replicate 12 PassOutcome.softTimeout)).map LoopResult.count =
      [10, 20, 30, 40, 50, 60, 70, 80, 90, 100, 110, 120] ∧
    ∀ r ∈ loopRun [] 50 0 (List.replicate 12 PassOutcome.softTimeout),
      r.terminated = false := by
  decide

/-- **C1 (amended).** A pass re-raises (terminating the loop) exactly when it
is a hard-error pass whose increment leaves the counter strictly above 100;
a counter of exactly 100 never terminates, and a soft-timeout increment
never triggers the termination check no matter how large the counter is. -/
theorem C1_terminate_only_hard_over_100 (queries : List String) (thresh c : Int)
    (o : PassOutcome) :
    (loopStep queries thresh c o).terminated = true ↔
      (∃ txt b, o = PassOutcome.hardError txt b) ∧ 100 < c + 10 := by
  cases o with
  | ok => simp [loopStep]
  | softTimeout => simp [loopStep]
  | hardError txt b =>
      simp only [loopStep, decide_eq_true_eq]
      constructor
      · intro h
        exact ⟨⟨txt, b, rfl⟩, h⟩
      · intro h
        exact h.2

/-- **C5.** On a pass whose hard error carries the counter across the alert
threshold, exactly one operator-alert send is attempted; the pass's result is
identical whether or not that alert send itself fails (the failure is
swallowed), and the pass re-raises only by the `> 100` rule, independent of
the alert attempt's outcome. -/
theorem C5_one_alert_on_crossing (queries : List String) (thresh c : Int)
    (txt : String) (f : Bool) (_h1 : c ≤ thresh) (h2 : thresh < c + 10) :
    (loopStep queries thresh c (.hardError txt f)).alerts.length = 1 ∧
    loopStep queries thresh c (.hardError txt true) =
      loopStep queries thresh c (.hardError txt false) ∧
    ((loopStep queries thresh c (.hardError txt f)).terminated = true ↔ 100 < c + 10) := by
  refine ⟨?_, rfl, ?_⟩
  · simp [loopStep, if_pos h2]
  · simp [loopStep]

/-- **C5 witness**: threshold 45, counter 40, hard error crossing to 50. -/
theorem C5_witness :
    (loopStep ["q"] 45 40 (.hardError "e" true)).alerts.length = 1 ∧
    loopStep ["q"] 45 40 (.hardError "e" true) =
      loopStep ["q"] 45 40 (.hardError "e" false) ∧
    ((loopStep ["q"] 45 40 (.hardError "e" true)).terminated = true ↔ 100 < (40 : Int) + 10) :=
  C5_one_alert_on_crossing ["q"] 45 40 "e" true (by decide) (by decide)

/-! ### Email wording lemmas -/

theorem pluralSuffix_zero : pluralSuffix 0 = "" := rfl

theorem match_line_data (l : List Char) :
    "New match".data ++ (" found for query ".data ++ l) =
      "New match found for query ".data ++ l := by
  rw [← List.append_assoc]
  congr 1

theorem data_empty : ("" : String).data = [] := rfl

/-- With `count = 0` the body uses the singular "New match" wording. -/
theorem emailBody_zero (toAddr q rep : String) :
    emailBody toAddr q rep 0 =
      "Subject: " ++ subjectLine q ++ "\r\n" ++ "To: " ++ toAddr ++ "\r\n" ++
      "From: " ++ senderLine toAddr ++ "\r\n" ++ "\r\n" ++
      "New match found for query " ++ q ++ "\r\n" ++ rep := by
  apply String.ext
  simp only [emailBody, pluralSuffix_zero, String.data_append, List.append_assoc,
    data_empty, List.nil_append, match_line_data]
  rfl

/-- **C10.** Every operator-alert email attempted by a hard-error pass is
invoked with count 0 (hence the singular "match" wording in the body), with
`str(queries)` as the report argument, and with the exception-describing
text as the query argument, which is what the subject line is built from. -/
theorem C10_alert_call_arguments (queries : List String) (thresh c : Int)
    (txt : String) (f : Bool) (toAddr : String) (m : EmailMsg)
    (hm : m ∈ (loopStep queries thresh c (.hardError txt f)).alerts) :
    m.count = 0 ∧
    pluralSuffix m.count = "" ∧
    m.report = pyStrList queries ∧
    txt.data <:+ m.query.data ∧
    m.query.data <+: (subjectLine m.query).data ∧
    emailBody toAddr m.query m.report m.count =
      "Subject: " ++ subjectLine m.query ++ "\r\n" ++ "To: " ++ toAddr ++ "\r\n" ++
      "From: " ++ senderLine toAddr ++ "\r\n" ++ "\r\n" ++
      "New match found for query " ++ m.query ++ "\r\n" ++ m.report := by
  have hm' : m = alertMsg queries txt (c + 10) := by
    by_cases hcond : c + 10 > thresh
    · simpa [loopStep, if_pos hcond] using hm
    · simp [loopStep, if_neg hcond] at hm
  subst hm'
  refine ⟨rfl, rfl, rfl, ?_, ?_, ?_⟩
  · refine ⟨("Exception in script detected.\n" ++
      "Exception count " ++ toString ((c + 10) / 10) ++ "\n" ++
      "The script will die after the count reaches 10\n").data, ?_⟩
    simp [alertMsg, String.data_append, List.append_assoc]
  · exact ⟨" search match on KSL Classifieds".data, by simp [subjectLine, String.data_append]⟩
  · exact emailBody_zero toAddr _ _

/-- **C10 witness**: the alert attempted when a hard error lifts the counter
from 0 to 10 past threshold 0. -/
theorem C10_witness :
    (alertMsg ["q"] "boom" 10).count = 0 ∧
    pluralSuffix (alertMsg ["q"] "boom" 10).count = "" ∧
    (alertMsg ["q"] "boom" 10).report = pyStrList ["q"] ∧
    ("boom" : String).data <:+ (alertMsg ["q"] "boom" 10).query.data ∧
    (alertMsg ["q"] "boom" 10).query.data <+:
      (subjectLine (alertMsg ["q"] "boom" 10).query).data ∧
    emailBody "ops@example.com" (alertMsg ["q"] "boom" 10).query
        (alertMsg ["q"] "boom" 10).report (alertMsg ["q"] "boom" 10).count =
      "Subject: " ++ subjectLine (alertMsg ["q"] "boom" 10).query ++ "\r\n" ++
      "To: " ++ "ops@example.com" ++ "\r\n" ++
      "From: " ++ senderLine "ops@example.com" ++ "\r\n" ++ "\r\n" ++
      "New match found for query " ++ (alertMsg ["q"] "boom" 10).query ++ "\r\n" ++
      (alertMsg ["q"] "boom" 10).report :=
  C10_alert_call_arguments ["q"] 0 0 "boom" false "ops@example.com"
    (alertMsg ["q"] "boom" 10) (by decide)

end KslNotify
